import Mathlib

/-!
Shallow embedding of `src/helpers/data_channel.ts` (Threema Web):
a flow-controlled sender-side data channel (`FlowControlledDataChannel`)
and its unbounded, promise-chain-queued variant
(`UnboundedFlowControlledDataChannel`).

Modelling choices:
* A `Future` (the single-resolution readiness signal) is a pair of an
  identity tag and a `done` flag; `resolve` sets the flag, a fresh
  instance gets a fresh tag from a counter carried in the controller.
* The `RTCDataChannel` transport is external; the parts the code touches
  (`send`, `bufferedAmount`, `bufferedAmountLowThreshold`,
  `onbufferedamountlow`) are modelled as a record plus a per-call oracle
  `WriteEnv` saying whether `send` throws and what `bufferedAmount`
  reads afterwards.  The record also carries `sent`, the trace of
  messages passed to `send` in order.
* The unbounded variant's promise chain
  (`this.queue = this.queue.then(() => this.writeWhenReady(message))`)
  is modelled as a small-step event machine: a `write` event appends a
  chain link, a `lowmark` event fires the transport's
  buffered-amount-low callback, and a `step` event lets the event loop
  run the head link when its awaited readiness future is resolved.
  A rejected chain tail is recorded in `rejected`; a `.then` success
  continuation attached to a rejected promise never runs, which is
  exactly the guard in the `step` case.
-/

namespace DataChannel

/-- A message payload, abstracted to an identifying tag. -/
abbrev Msg := Nat

/-- A single-resolution future: an identity tag plus a resolution flag. -/
structure Future where
  id : Nat
  done : Bool
deriving DecidableEq, Repr

/-- A fresh, unresolved future instance with the given identity. -/
def Future.new (id : Nat) : Future :=
  { id := id, done := false }

/-- Resolving a future sets its `done` flag; resolving twice is a no-op. -/
def Future.resolve (f : Future) : Future :=
  { f with done := true }

/-- The transport handle: the fields of `RTCDataChannel` that the code
reads or writes, plus `sent`, the ordered trace of messages handed to
the transport's `send` operation. -/
structure RTCDataChannel where
  bufferedAmount : Nat
  bufferedAmountLowThreshold : Nat
  onbufferedamountlowRegistered : Bool
  sent : List Msg
deriving DecidableEq, Repr

/-- Errors a bounded `write` can raise: the paused-state contract
violation, or a failure thrown by the transport's `send`. -/
inductive WriteError where
  | NotReady
  | TransportError
deriving DecidableEq, Repr

/-- Per-call transport oracle: whether `dc.send` succeeds, and the value
`dc.bufferedAmount` reads right after the send. -/
structure WriteEnv where
  sendOk : Bool
  bufferedAfter : Nat
deriving DecidableEq, Repr

/-- State of `FlowControlledDataChannel`: the configured high watermark,
the current readiness future `_ready`, and a counter supplying fresh
future identities. -/
structure FlowControlledDataChannel where
  highWaterMark : Nat
  ready : Future
  nextId : Nat
deriving DecidableEq, Repr

/-- The constructor: watermarks default to 262144 and 1048576 when
omitted; it sets the transport's low-watermark threshold, registers the
`onbufferedamountlow` handler, and starts with the readiness future
already resolved. -/
def FlowControlledDataChannel.make (dc : RTCDataChannel)
    (lowWaterMark highWaterMark : Option Nat) :
    FlowControlledDataChannel × RTCDataChannel :=
  ({ highWaterMark := highWaterMark.getD 1048576,
     ready := (Future.new 0).resolve,
     nextId := 1 },
   { dc with
     bufferedAmountLowThreshold := lowWaterMark.getD 262144,
     onbufferedamountlowRegistered := true })

/-- `FlowControlledDataChannel.write`: throw `NotReady` if paused; else
call `dc.send(message)` (which may throw `TransportError`); else, if
`dc.bufferedAmount` is now at or above the high watermark, replace the
readiness future with a fresh unresolved one. -/
def FlowControlledDataChannel.write (st : FlowControlledDataChannel)
    (dc : RTCDataChannel) (message : Msg) (env : WriteEnv) :
    Except WriteError (FlowControlledDataChannel × RTCDataChannel) :=
  if st.ready.done = false then
    Except.error WriteError.NotReady
  else if env.sendOk = false then
    Except.error WriteError.TransportError
  else
    let dc2 : RTCDataChannel :=
      { dc with sent := dc.sent ++ [message], bufferedAmount := env.bufferedAfter }
    if st.highWaterMark ≤ env.bufferedAfter then
      Except.ok ({ st with ready := Future.new st.nextId, nextId := st.nextId + 1 }, dc2)
    else
      Except.ok (st, dc2)

/-- The registered `onbufferedamountlow` handler: if the readiness
future is unresolved, resolve it; otherwise do nothing. -/
def FlowControlledDataChannel.onbufferedamountlow
    (st : FlowControlledDataChannel) : FlowControlledDataChannel :=
  if st.ready.done = false then { st with ready := st.ready.resolve } else st

/-- Run a sequence of bounded writes, each with its own transport
oracle, stopping at the first error. -/
def writeSeq : FlowControlledDataChannel → RTCDataChannel → List (Msg × WriteEnv) →
    Except WriteError (FlowControlledDataChannel × RTCDataChannel)
  | st, dc, [] => Except.ok (st, dc)
  | st, dc, (m, env) :: rest =>
    match st.write dc m env with
    | Except.ok p => writeSeq p.1 p.2 rest
    | Except.error e => Except.error e

/-- State of `UnboundedFlowControlledDataChannel`: the inherited bounded
controller state and transport, the chain links whose continuation has
not yet run (`pending`, FIFO), whether the chain tail is a rejected
promise and with which error (`rejected`), and the ghost trace of all
messages ever submitted to the unbounded `write`, in order
(`submitted`). -/
structure UnboundedFlowControlledDataChannel where
  fcdc : FlowControlledDataChannel
  dc : RTCDataChannel
  pending : List Msg
  rejected : Option WriteError
  submitted : List Msg
deriving DecidableEq, Repr

/-- The unbounded constructor: build the bounded controller, then set
`this.queue = this.ready`, i.e. the chain starts settled (fulfilled)
with no pending links. -/
def UnboundedFlowControlledDataChannel.make (dc : RTCDataChannel)
    (lowWaterMark highWaterMark : Option Nat) :
    UnboundedFlowControlledDataChannel :=
  let p := FlowControlledDataChannel.make dc lowWaterMark highWaterMark
  { fcdc := p.1, dc := p.2, pending := [], rejected := none, submitted := [] }

/-- Events interleaved by the single-threaded event loop:
a caller invoking the unbounded `write`, the transport firing the
buffered-amount-low notification, and the event loop running the head
chain link (with the transport oracle for the send it performs). -/
inductive Event where
  | write (message : Msg)
  | lowmark
  | step (env : WriteEnv)
deriving DecidableEq, Repr

/-- One step of the unbounded controller's machine.

* `write m`: `this.queue = this.queue.then(...)` — always succeeds,
  appends one link; a `.then` on a rejected promise still returns (the
  new tail is again rejected), so `rejected` is untouched.
* `lowmark`: runs the registered handler on the bounded state.
* `step env`: the head link's continuation runs only when the chain
  tail so far is fulfilled (a success-only `.then` continuation never
  runs on a rejected promise) and the awaited readiness future is
  resolved; it then delegates to the bounded `write`.  An error from
  the delegated write rejects the chain tail. -/
def UnboundedFlowControlledDataChannel.exec
    (s : UnboundedFlowControlledDataChannel) (e : Event) :
    UnboundedFlowControlledDataChannel :=
  match e with
  | Event.write m =>
    { s with pending := s.pending ++ [m], submitted := s.submitted ++ [m] }
  | Event.lowmark =>
    { s with fcdc := s.fcdc.onbufferedamountlow }
  | Event.step env =>
    match s.rejected, s.pending with
    | some _, _ => s
    | none, [] => s
    | none, m :: rest =>
      if s.fcdc.ready.done = true then
        match s.fcdc.write s.dc m env with
        | Except.ok p => { s with fcdc := p.1, dc := p.2, pending := rest }
        | Except.error err => { s with rejected := some err, pending := rest }
      else s

/-- Run the machine over a list of events. -/
def UnboundedFlowControlledDataChannel.run
    (s : UnboundedFlowControlledDataChannel) (es : List Event) :
    UnboundedFlowControlledDataChannel :=
  es.foldl UnboundedFlowControlledDataChannel.exec s

/-- The chain-order invariant: the transport's send trace is a prefix of
the submission order, and while no link has rejected, the send trace
followed by the still-pending links is exactly the submission order. -/
def chainInvariant (s : UnboundedFlowControlledDataChannel) : Prop :=
  s.dc.sent <+: s.submitted ∧
    (s.rejected = none → s.dc.sent ++ s.pending = s.submitted)

/-- The chain tail is either still fulfilled or was rejected by a
transport failure; a `NotReady` rejection never appears. -/
def rejectedOk (s : UnboundedFlowControlledDataChannel) : Prop :=
  s.rejected = none ∨ s.rejected = some WriteError.TransportError

/-- A concrete fresh transport handle, used by witnesses. -/
def sampleDC : RTCDataChannel :=
  { bufferedAmount := 0, bufferedAmountLowThreshold := 0,
    onbufferedamountlowRegistered := false, sent := [] }

/-- A concrete paused bounded-controller state, used by witnesses. -/
def pausedFCDC : FlowControlledDataChannel :=
  { highWaterMark := 10, ready := Future.new 5, nextId := 6 }

/-- A concrete ready bounded-controller state, used by witnesses. -/
def readyFCDC : FlowControlledDataChannel :=
  { highWaterMark := 10, ready := (Future.new 5).resolve, nextId := 6 }

/-- A concrete unbounded-controller state whose chain has rejected: one
message was submitted and its link's delegated send threw. -/
def failedChain : UnboundedFlowControlledDataChannel :=
  (UnboundedFlowControlledDataChannel.make sampleDC none none).run
    [Event.write 1, Event.step { sendOk := false, bufferedAfter := 0 }]

/-! Helper lemmas shared across the claim theorems. -/

/-- A bounded write from a ready state never errors with `NotReady`:
the only error branch left is the transport failure. -/
theorem write_ready_error_is_transport (st : FlowControlledDataChannel)
    (dc : RTCDataChannel) (message : Msg) (env : WriteEnv) (e : WriteError)
    (hready : st.ready.done = true)
    (herr : st.write dc message env = Except.error e) :
    e = WriteError.TransportError := by
  unfold FlowControlledDataChannel.write at herr
  rw [hready] at herr
  simp only [Bool.true_eq_false, if_false] at herr
  by_cases hsend : env.sendOk = false
  · rw [if_pos hsend] at herr
    exact (Except.error.inj herr).symm
  · rw [if_neg hsend] at herr
    by_cases hw : st.highWaterMark ≤ env.bufferedAfter
    · rw [if_pos hw] at herr
      exact absurd herr (by simp)
    · rw [if_neg hw] at herr
      exact absurd herr (by simp)

/-- A successful bounded write appends exactly the written message to
the transport's send trace. -/
theorem write_ok_sent (st : FlowControlledDataChannel) (dc : RTCDataChannel)
    (message : Msg) (env : WriteEnv)
    (p : FlowControlledDataChannel × RTCDataChannel)
    (hok : st.write dc message env = Except.ok p) :
    p.2.sent = dc.sent ++ [message] := by
  unfold FlowControlledDataChannel.write at hok
  by_cases hready : st.ready.done = false
  · rw [if_pos hready] at hok
    exact absurd hok (by simp)
  · rw [if_neg hready] at hok
    by_cases hsend : env.sendOk = false
    · rw [if_pos hsend] at hok
      exact absurd hok (by simp)
    · rw [if_neg hsend] at hok
      by_cases hw : st.highWaterMark ≤ env.bufferedAfter
      · rw [if_pos hw] at hok
        rw [← Except.ok.inj hok]
      · rw [if_neg hw] at hok
        rw [← Except.ok.inj hok]

/-- One machine step preserves `rejectedOk`. -/
theorem exec_rejectedOk (s : UnboundedFlowControlledDataChannel) (e : Event)
    (h : rejectedOk s) : rejectedOk (s.exec e) := by
  cases e with
  | write m => exact h
  | lowmark => exact h
  | step env =>
    simp only [UnboundedFlowControlledDataChannel.exec]
    rcases hr : s.rejected with _ | err
    · rcases hp : s.pending with _ | ⟨m, rest⟩
      · simp only [hr, hp]
        exact h
      · simp only [hr, hp]
        by_cases hready : s.fcdc.ready.done = true
        · rw [if_pos hready]
          rcases hw : s.fcdc.write s.dc m env with err2 | p
          · simp only [hw]
            right
            simp only [Option.some.injEq]
            exact write_ready_error_is_transport s.fcdc s.dc m env err2 hready hw
          · simp only [hw]
            left
            rfl
        · rw [if_neg hready]
          exact h
    · simp only [hr]
      exact h

/-- Running any event list preserves `rejectedOk`. -/
theorem run_rejectedOk (s : UnboundedFlowControlledDataChannel)
    (es : List Event) (h : rejectedOk s) : rejectedOk (s.run es) := by
  induction es generalizing s with
  | nil => exact h
  | cons e rest ih =>
    exact ih (s.exec e) (exec_rejectedOk s e h)

/-- One machine step preserves the chain-order invariant. -/
theorem exec_chainInvariant (s : UnboundedFlowControlledDataChannel) (e : Event)
    (h : chainInvariant s) : chainInvariant (s.exec e) := by
  obtain ⟨hpre, hfifo⟩ := h
  cases e with
  | write m =>
    refine ⟨hpre.trans (List.prefix_append s.submitted [m]), fun hr => ?_⟩
    have : s.dc.sent ++ s.pending = s.submitted := hfifo hr
    simp only [UnboundedFlowControlledDataChannel.exec]
    rw [← List.append_assoc, this]
  | lowmark => exact ⟨hpre, hfifo⟩
  | step env =>
    simp only [UnboundedFlowControlledDataChannel.exec]
    rcases hr : s.rejected with _ | err
    · rcases hp : s.pending with _ | ⟨m, rest⟩
      · simp only [hr, hp]
        exact ⟨hpre, fun _ => hfifo hr⟩
      · simp only [hr, hp]
        by_cases hready : s.fcdc.ready.done = true
        · rw [if_pos hready]
          have hmain : s.dc.sent ++ (m :: rest) = s.submitted := hp ▸ hfifo hr
          rcases hw : s.fcdc.write s.dc m env with err2 | p
          · simp only [hw]
            refine ⟨hpre, fun hcontra => ?_⟩
            exact absurd hcontra (by simp)
          · simp only [hw]
            have hsent : p.2.sent = s.dc.sent ++ [m] :=
              write_ok_sent s.fcdc s.dc m env p hw
            have hfin : p.2.sent ++ rest = s.submitted := by
              rw [hsent, List.append_assoc, List.singleton_append, hmain]
            exact ⟨⟨rest, hfin⟩, fun _ => hfin⟩
        · rw [if_neg hready]
          exact ⟨hpre, fun _ => hfifo hr⟩
    · simp only [hr]
      exact ⟨hpre, hfifo⟩

/-- Running any event list preserves the chain-order invariant. -/
theorem run_chainInvariant (s : UnboundedFlowControlledDataChannel)
    (es : List Event) (h : chainInvariant s) : chainInvariant (s.run es) := by
  induction es generalizing s with
  | nil => exact h
  | cons e rest ih =>
    exact ih (s.exec e) (exec_chainInvariant s e h)

/-- Once the chain has rejected, one machine step changes neither the
send trace nor the rejection. -/
theorem exec_rejected_frame (s : UnboundedFlowControlledDataChannel) (e : Event)
    (err : WriteError) (h : s.rejected = some err) :
    (s.exec e).dc.sent = s.dc.sent ∧ (s.exec e).rejected = some err := by
  cases e with
  | write m => exact ⟨rfl, h⟩
  | lowmark => exact ⟨rfl, h⟩
  | step env =>
    simp [UnboundedFlowControlledDataChannel.exec, h]

/-- Once the chain has rejected, running any event list changes neither
the send trace nor the rejection. -/
theorem run_rejected_frame (s : UnboundedFlowControlledDataChannel)
    (es : List Event) (err : WriteError) (h : s.rejected = some err) :
    (s.run es).dc.sent = s.dc.sent ∧ (s.run es).rejected = some err := by
  induction es generalizing s with
  | nil => exact ⟨rfl, h⟩
  | cons e rest ih =>
    obtain ⟨hsent, hrej⟩ := exec_rejected_frame s e err h
    obtain ⟨hsent2, hrej2⟩ := ih (s.exec e) hrej
    exact ⟨hsent2.trans hsent, hrej2⟩

/-- A bounded write from a ready state either surfaces the transport's
own failure or succeeds; in particular it never errors `NotReady`. -/
theorem write_ready_not_notReady_cases (st : FlowControlledDataChannel)
    (dc : RTCDataChannel) (message : Msg) (env : WriteEnv)
    (hready : st.ready.done = true) :
    st.write dc message env = Except.error WriteError.TransportError ∨
      ∃ p, st.write dc message env = Except.ok p := by
  rcases hw : st.write dc message env with e | p
  · left
    rw [write_ready_error_is_transport st dc message env e hready hw]
  · right
    exact ⟨p, rfl⟩

/-! The claim theorems. -/

/-- C1: over every interleaving of caller writes, low-watermark
notifications and event-loop steps from construction, the transport
receives messages in exactly the order the unbounded `write` was
called: the send trace is always a prefix of the submission order, and
while no chain link has rejected, the trace followed by the still
queued links is exactly the submission order.  The machine runs at most
the single head link per step, so no two queued writes delegate
concurrently. -/
theorem unbounded_fifo_order (buffered threshold : Nat) (registered : Bool)
    (lowWaterMark highWaterMark : Option Nat) (es : List Event) :
    chainInvariant ((UnboundedFlowControlledDataChannel.make
      { bufferedAmount := buffered, bufferedAmountLowThreshold := threshold,
        onbufferedamountlowRegistered := registered, sent := [] }
      lowWaterMark highWaterMark).run es) := by
  apply run_chainInvariant
  exact ⟨⟨[], rfl⟩, fun _ => rfl⟩

/-- C2: a bounded write from the ready state with a successful send
appends the message to the transport trace; when the buffered amount
read afterwards is at or above the high watermark the readiness future
is replaced by a fresh unresolved instance (distinct from the old one),
and when it is strictly below the controller state — the readiness
future included — is left unchanged. -/
theorem write_ready_pause_on_highwater (st : FlowControlledDataChannel)
    (dc : RTCDataChannel) (message : Msg) (env : WriteEnv)
    (hready : st.ready.done = true) (hsend : env.sendOk = true) :
    ∃ st2 dc2, st.write dc message env = Except.ok (st2, dc2) ∧
      dc2.sent = dc.sent ++ [message] ∧
      (st.highWaterMark ≤ env.bufferedAfter →
        st2.ready = Future.new st.nextId ∧ st2.ready.done = false ∧
          st2.ready ≠ st.ready) ∧
      (env.bufferedAfter < st.highWaterMark → st2 = st) := by
  unfold FlowControlledDataChannel.write
  rw [hready, hsend]
  simp only [Bool.true_eq_false, if_false]
  by_cases hw : st.highWaterMark ≤ env.bufferedAfter
  · rw [if_pos hw]
    refine ⟨_, _, rfl, rfl, fun _ => ⟨rfl, rfl, ?_⟩, fun hlt => absurd hw (not_le.mpr hlt)⟩
    intro heq
    have hdone := congrArg Future.done heq
    rw [hready] at hdone
    simp [Future.new] at hdone
  · rw [if_neg hw]
    exact ⟨st, _, rfl, rfl, fun hle => absurd hle hw, fun _ => rfl⟩

/-- C2 witness: a concrete ready-state write whose post-send buffered
amount reaches the high watermark. -/
theorem write_ready_pause_on_highwater_witness :
    ∃ st2 dc2,
      readyFCDC.write sampleDC 4 { sendOk := true, bufferedAfter := 12 } =
        Except.ok (st2, dc2) ∧
      dc2.sent = sampleDC.sent ++ [4] ∧
      (readyFCDC.highWaterMark ≤ 12 →
        st2.ready = Future.new readyFCDC.nextId ∧ st2.ready.done = false ∧
          st2.ready ≠ readyFCDC.ready) ∧
      (12 < readyFCDC.highWaterMark → st2 = readyFCDC) :=
  write_ready_pause_on_highwater readyFCDC sampleDC 4
    { sendOk := true, bufferedAfter := 12 } (by decide) (by decide)

/-- C3: a bounded write while paused (readiness future unresolved)
fails with `NotReady` for every message and every transport oracle; the
error branch returns before the transport is touched, so no send side
effect occurs. -/
theorem write_paused_fails_notReady (st : FlowControlledDataChannel)
    (dc : RTCDataChannel) (message : Msg) (env : WriteEnv)
    (h : st.ready.done = false) :
    st.write dc message env = Except.error WriteError.NotReady := by
  unfold FlowControlledDataChannel.write
  rw [if_pos h]

/-- C3 witness: a concrete paused controller rejects a write even
though the transport oracle would have accepted the send. -/
theorem write_paused_fails_notReady_witness :
    pausedFCDC.ready.done = false ∧
      pausedFCDC.write sampleDC 7 { sendOk := true, bufferedAfter := 3 } =
        Except.error WriteError.NotReady :=
  ⟨by decide,
    write_paused_fails_notReady pausedFCDC sampleDC 7
      { sendOk := true, bufferedAfter := 3 } (by decide)⟩

/-- C4: deliveries made through the unbounded controller can never hit
the bounded write's `NotReady` branch: each chain link delegates only
after its awaited readiness future is resolved, so over every event
interleaving from construction the chain is either still fulfilled or
rejected with `TransportError` — never with `NotReady`. -/
theorem unbounded_never_notReady (dc : RTCDataChannel)
    (lowWaterMark highWaterMark : Option Nat) (es : List Event) :
    ((UnboundedFlowControlledDataChannel.make dc lowWaterMark highWaterMark).run
        es).rejected = none ∨
      ((UnboundedFlowControlledDataChannel.make dc lowWaterMark highWaterMark).run
          es).rejected = some WriteError.TransportError :=
  run_rejectedOk _ es (Or.inl rfl)

/-- C5: the buffered-amount-low handler resolves the current readiness
future when the controller is paused (the same instance, now resolved)
and is a no-op when already ready; firing it any number of further
times while ready changes nothing, and being a total function it has no
failure mode. -/
theorem onbufferedamountlow_resolve_or_noop (st : FlowControlledDataChannel) :
    (st.ready.done = false →
      st.onbufferedamountlow = { st with ready := st.ready.resolve } ∧
        (st.onbufferedamountlow).ready.done = true) ∧
    (st.ready.done = true →
      ∀ n : Nat, (FlowControlledDataChannel.onbufferedamountlow)^[n] st = st) := by
  constructor
  · intro h
    constructor
    · unfold FlowControlledDataChannel.onbufferedamountlow
      rw [if_pos h]
    · unfold FlowControlledDataChannel.onbufferedamountlow
      rw [if_pos h]
      rfl
  · intro h n
    have hid : st.onbufferedamountlow = st := by
      unfold FlowControlledDataChannel.onbufferedamountlow
      rw [if_neg (by simp [h])]
    induction n with
    | zero => rfl
    | succ k ih =>
      rw [Function.iterate_succ_apply, hid, ih]

/-- C5 witness: a concrete paused controller is resolved by one firing,
and a concrete ready controller absorbs three further firings. -/
theorem onbufferedamountlow_resolve_or_noop_witness :
    (pausedFCDC.ready.done = false →
      pausedFCDC.onbufferedamountlow =
          { pausedFCDC with ready := pausedFCDC.ready.resolve } ∧
        (pausedFCDC.onbufferedamountlow).ready.done = true) ∧
    (pausedFCDC.ready.done = true →
      ∀ n : Nat,
        (FlowControlledDataChannel.onbufferedamountlow)^[n] pausedFCDC = pausedFCDC) :=
  onbufferedamountlow_resolve_or_noop pausedFCDC

/-- C6: a run of bounded writes from the ready state whose post-send
buffered amount stays strictly below the high watermark succeeds
entirely, leaves the controller state — in particular the readiness
future instance — untouched, and hands the transport exactly the
written messages in order. -/
theorem writeSeq_below_highwater_keeps_ready (st : FlowControlledDataChannel)
    (dc : RTCDataChannel) (l : List (Msg × WriteEnv))
    (hready : st.ready.done = true)
    (henv : ∀ p ∈ l, p.2.sendOk = true ∧ p.2.bufferedAfter < st.highWaterMark) :
    ∃ dc2, writeSeq st dc l = Except.ok (st, dc2) ∧
      dc2.sent = dc.sent ++ l.map Prod.fst := by
  induction l generalizing dc with
  | nil => exact ⟨dc, rfl, by simp⟩
  | cons hd tl ih =>
    obtain ⟨m, env⟩ := hd
    obtain ⟨hsend, hw⟩ := henv (m, env) (List.mem_cons_self _ _)
    have hstep : st.write dc m env =
        Except.ok (st,
          { dc with sent := dc.sent ++ [m], bufferedAmount := env.bufferedAfter }) := by
      unfold FlowControlledDataChannel.write
      rw [hready, hsend]
      simp only [Bool.true_eq_false, if_false]
      rw [if_neg (not_le.mpr hw)]
    obtain ⟨dc2, hrun, hsent⟩ :=
      ih { dc with sent := dc.sent ++ [m], bufferedAmount := env.bufferedAfter }
        (fun p hp => henv p (List.mem_cons_of_mem _ hp))
    refine ⟨dc2, ?_, ?_⟩
    · simp only [writeSeq, hstep]
      exact hrun
    · rw [hsent]
      simp

/-- C6 witness: two concrete below-watermark writes keep the controller
state identical and deliver both messages in order. -/
theorem writeSeq_below_highwater_keeps_ready_witness :
    ∃ dc2,
      writeSeq readyFCDC sampleDC
          [(1, { sendOk := true, bufferedAfter := 3 }),
           (2, { sendOk := true, bufferedAfter := 7 })] =
        Except.ok (readyFCDC, dc2) ∧
      dc2.sent = sampleDC.sent ++
        (List.map Prod.fst
          [((1 : Msg), ({ sendOk := true, bufferedAfter := 3 } : WriteEnv)),
           ((2 : Msg), ({ sendOk := true, bufferedAfter := 7 } : WriteEnv))]) :=
  writeSeq_below_highwater_keeps_ready readyFCDC sampleDC
    [(1, { sendOk := true, bufferedAfter := 3 }),
     (2, { sendOk := true, bufferedAfter := 7 })] (by decide) (by decide)

/-- C7: after a chain link rejects with `TransportError`, a later call
to the unbounded `write` still extends the chain by one link — the
`.then` call on a rejected promise succeeds — and the rejection stays
recorded on the chain tail, where the caller's attached continuations
observe it. -/
theorem write_after_transport_failure (s : UnboundedFlowControlledDataChannel)
    (m : Msg) (h : s.rejected = some WriteError.TransportError) :
    (s.exec (Event.write m)).pending = s.pending ++ [m] ∧
      (s.exec (Event.write m)).submitted = s.submitted ++ [m] ∧
      (s.exec (Event.write m)).rejected = some WriteError.TransportError :=
  ⟨rfl, rfl, h⟩

/-- C7 witness: the concrete rejected chain still accepts a further
write, which extends it while the rejection remains observable. -/
theorem write_after_transport_failure_witness :
    (failedChain.exec (Event.write 2)).pending = failedChain.pending ++ [2] ∧
      (failedChain.exec (Event.write 2)).submitted = failedChain.submitted ++ [2] ∧
      (failedChain.exec (Event.write 2)).rejected = some WriteError.TransportError :=
  write_after_transport_failure failedChain 2 (by decide)

/-- C8: construction with both watermarks omitted uses low 262144 and
high 1048576, configures the transport's low-watermark threshold,
registers the buffered-amount-low handler, and starts with the
readiness future already resolved, so a first write never fails with
`NotReady`: it either succeeds or surfaces the transport's own
failure. -/
theorem make_defaults_ready (dc : RTCDataChannel) :
    (FlowControlledDataChannel.make dc none none).1.highWaterMark = 1048576 ∧
      (FlowControlledDataChannel.make dc none none).2.bufferedAmountLowThreshold =
        262144 ∧
      (FlowControlledDataChannel.make dc none none).2.onbufferedamountlowRegistered =
        true ∧
      (FlowControlledDataChannel.make dc none none).1.ready.done = true ∧
      ∀ (message : Msg) (env : WriteEnv),
        (FlowControlledDataChannel.make dc none none).1.write
            (FlowControlledDataChannel.make dc none none).2 message env =
          Except.error WriteError.TransportError ∨
        ∃ p,
          (FlowControlledDataChannel.make dc none none).1.write
              (FlowControlledDataChannel.make dc none none).2 message env =
            Except.ok p :=
  ⟨rfl, rfl, rfl, rfl, fun message env =>
    write_ready_not_notReady_cases _ _ message env rfl⟩

/-- C9: the unbounded `write` is a total function — it never fails for
any message and any controller state (ready or paused, chain fulfilled
or rejected) — and its whole effect is to append exactly one link to
the pending chain and one entry to the submission record, leaving every
other component unchanged. -/
theorem unbounded_write_never_fails (s : UnboundedFlowControlledDataChannel)
    (m : Msg) :
    s.exec (Event.write m) =
      { s with pending := s.pending ++ [m], submitted := s.submitted ++ [m] } :=
  rfl

/-- C10: once the chain has rejected, no subsequent events — further
writes, low-watermark notifications or event-loop steps — ever deliver
another message to the transport: success continuations chained after
the rejected tail never run, and the rejection propagates through every
later link. -/
theorem rejected_chain_delivers_nothing (s : UnboundedFlowControlledDataChannel)
    (err : WriteError) (es : List Event) (h : s.rejected = some err) :
    (s.run es).dc.sent = s.dc.sent :=
  (run_rejected_frame s es err h).1

/-- C10 witness: after the concrete transport failure, a further write,
a step that would otherwise deliver it, and a notification leave the
send trace untouched. -/
theorem rejected_chain_delivers_nothing_witness :
    failedChain.rejected = some WriteError.TransportError ∧
      (failedChain.run
          [Event.write 2, Event.lowmark,
           Event.step { sendOk := true, bufferedAfter := 0 }]).dc.sent =
        failedChain.dc.sent :=
  ⟨by decide,
    rejected_chain_delivers_nothing failedChain WriteError.TransportError
      [Event.write 2, Event.lowmark,
       Event.step { sendOk := true, bufferedAfter := 0 }] (by decide)⟩

end DataChannel
